import Mathlib

/-!
Verification development for the TrackSite facial-recognition attendance
system (Python).  The definitions below are a shallow embedding of the
attendance state machine (`models/attendance_logger.py`), the dual-store
persistence layer (`config/database.py`), the synchronization engine
(`models/sync_manager.py`) and the recognition-debounce gate
(`main.py`, class `StabilityTracker` together with `_update_stability`
and `_process_attendance`).

Modelling conventions:
- Times of day (the Python `HH:MM:SS` strings produced by `strftime`)
  are modelled as natural numbers counting seconds since midnight.
- ISO date strings are modelled as natural numbers (only equality of
  dates is ever used by the code).
- Python floats are modelled as rationals; `round(x, 2)` is modelled as
  exact half-to-even rounding on rationals (`pyRound2`).
- The MySQL driver is modelled by a `connected` flag (mirrors
  `is_connected`) and a `healthy` flag: a query raises a driver error
  exactly when the store is not healthy.  SQLite operations never fail
  in the source (no try/except around them), so they are total here.
- Wall-clock timestamps used by the debounce gate (`time.time()`) are
  modelled as rationals.
-/

namespace TrackSite

/-- Seconds since midnight; the model of a `HH:MM:SS` time-of-day value. -/
abbrev TimeOfDay := Nat

/-- Model of an ISO calendar-date string (only compared for equality). -/
abbrev DateVal := Nat

/-- Sync status of a local-buffer row (`sync_status` column). -/
inductive SyncStatus where
  | pending
  | synced
deriving DecidableEq, Repr

/-- Row of the central MySQL `attendance` table. -/
structure CentralRow where
  attendance_id : Nat
  worker_id : Nat
  attendance_date : DateVal
  time_in : Option TimeOfDay
  time_out : Option TimeOfDay
  status : String
  hours_worked : ℚ
  is_archived : Bool
deriving DecidableEq, Repr

/-- Row of the local SQLite `attendance_buffer` table.  `created_at` is
the monotone insertion stamp (rows are stored in creation order). -/
structure BufferRow where
  id : Nat
  worker_id : Nat
  attendance_date : DateVal
  time_in : Option TimeOfDay
  time_out : Option TimeOfDay
  status : String
  hours_worked : ℚ
  sync_status : SyncStatus
  created_at : Nat
deriving DecidableEq, Repr

/-- State of the central MySQL connection (`MySQLDatabase`).
`connected` mirrors `is_connected`; `healthy` says whether queries
succeed (a query on an unhealthy connection raises a driver error,
which `execute_query` turns into a `None` result and `is_connected =
False`, and `fetch_all` turns into an empty result).  `reconnectable`
says whether a fresh `connect()` call would succeed. -/
structure MySQLState where
  connected : Bool
  healthy : Bool
  reconnectable : Bool
  table : List CentralRow
  nextId : Nat
deriving DecidableEq, Repr

/-- State of the local SQLite buffer (`SQLiteDatabase`).  `buffer` is
kept in `created_at` order (inserts append), matching the
`ORDER BY created_at ASC` used by `get_pending_records`. -/
structure SQLiteState where
  buffer : List BufferRow
  nextId : Nat
deriving DecidableEq, Repr

/-- Configuration surface consumed by the core (`config/settings.py`). -/
structure Config where
  minWorkIntervalMinutes : Int
  maxRetryAttempts : Nat
  stabilitySeconds : ℚ
  cooldownSeconds : ℚ
  apiConfigured : Bool
deriving DecidableEq, Repr

/-- Default configuration values from `config/settings.py`. -/
def defaultConfig : Config :=
  { minWorkIntervalMinutes := 30
    maxRetryAttempts := 3
    stabilitySeconds := 3
    cooldownSeconds := 60
    apiConfigured := false }

/-- Python `round` to the nearest integer with ties to even, on exact
rationals (Python floats are modelled as rationals). -/
def roundHalfEven (q : ℚ) : Int :=
  let n : Int := ⌊q⌋
  let f : ℚ := q - n
  if f < 1/2 then n
  else if 1/2 < f then n + 1
  else if n % 2 = 0 then n else n + 1

/-- Python `round(x, 2)` on exact rationals. -/
def pyRound2 (q : ℚ) : ℚ := (roundHalfEven (q * 100) : ℚ) / 100

/-- Predicate matched by the `WHERE worker_id = ? AND attendance_date = ?`
clause of the local-buffer queries. -/
def bufMatches (wid : Nat) (d : DateVal) (r : BufferRow) : Bool :=
  r.worker_id = wid && r.attendance_date = d

/-- Embedding of `SQLiteDatabase.insert_attendance`: appends a fresh
buffer row (`sync_status` defaults to `'pending'`, `hours_worked` to 0)
and returns its rowid. -/
def insert_attendance (st : SQLiteState) (wid : Nat) (d : DateVal)
    (tin tout : Option TimeOfDay) (status : String) : Nat × SQLiteState :=
  (st.nextId,
   { buffer := st.buffer ++
       [{ id := st.nextId, worker_id := wid, attendance_date := d,
          time_in := tin, time_out := tout, status := status,
          hours_worked := 0, sync_status := .pending,
          created_at := st.nextId }]
     nextId := st.nextId + 1 })

/-- Predicate matched by the `UPDATE` clause of
`SQLiteDatabase.update_timeout`. -/
def timeoutMatches (wid : Nat) (d : DateVal) (r : BufferRow) : Bool :=
  r.worker_id = wid && r.attendance_date = d &&
    r.time_out = none && r.sync_status = .pending

/-- Embedding of `SQLiteDatabase.update_timeout`: sets `time_out` and
`hours_worked` on every buffer row for (worker, date) that still has
`time_out IS NULL AND sync_status = 'pending'`; returns whether any row
was affected. -/
def update_timeout (st : SQLiteState) (wid : Nat) (d : DateVal)
    (tout : TimeOfDay) (hours : ℚ) : Bool × SQLiteState :=
  (0 < (st.buffer.filter (timeoutMatches wid d)).length,
   { st with buffer := st.buffer.map (fun r =>
       if timeoutMatches wid d r then
         { r with time_out := some tout, hours_worked := hours }
       else r) })

/-- Embedding of `SQLiteDatabase.get_pending_records`: all buffer rows
with `sync_status = 'pending'`, in `created_at` order. -/
def get_pending_records (st : SQLiteState) : List BufferRow :=
  st.buffer.filter (fun r => r.sync_status = .pending)

/-- Embedding of `SQLiteDatabase.mark_synced`: sets `sync_status` to
`'synced'` on the row with the given buffer id. -/
def mark_synced (st : SQLiteState) (bid : Nat) : SQLiteState :=
  { st with buffer := st.buffer.map (fun r =>
      if r.id = bid then { r with sync_status := .synced } else r) }

/-- Embedding of `SQLiteDatabase.get_today_attendance`: the most recent
(`ORDER BY created_at DESC LIMIT 1`) buffer row for (worker, date),
with NO filter on `sync_status`. -/
def get_today_attendance (st : SQLiteState) (wid : Nat) (d : DateVal) :
    Option BufferRow :=
  (st.buffer.filter (bufMatches wid d)).getLast?

/-- Specification-side lookup, written from the claim wording: the most
recent UNSYNCED (`sync_status = 'pending'`) buffer row for (worker,
date).  Only used to compare against `get_today_attendance`. -/
def get_today_attendance_unsynced_spec (st : SQLiteState) (wid : Nat)
    (d : DateVal) : Option BufferRow :=
  (st.buffer.filter (fun r => bufMatches wid d r &&
      r.sync_status = .pending)).getLast?

/-- Predicate matched by the central-store `SELECT ... WHERE worker_id
= %s AND attendance_date = %s AND is_archived = 0` lookups. -/
def centralMatches (wid : Nat) (d : DateVal) (r : CentralRow) : Bool :=
  r.worker_id = wid && r.attendance_date = d && r.is_archived = false

/-- Embedding of the central-store `fetch_one` for today's attendance
row: the first non-archived row for (worker, date); an unreachable or
errored connection yields no rows (`fetch_all` returns `[]`). -/
def mysqlFetchToday (m : MySQLState) (wid : Nat) (d : DateVal) :
    Option CentralRow :=
  if m.connected && m.healthy then m.table.find? (centralMatches wid d)
  else none

/-- Combined dual-store state seen by the attendance logger. -/
structure LoggerState where
  mysql : MySQLState
  sqlite : SQLiteState
deriving DecidableEq, Repr

/-- Projection of today's record used by the state machine: the columns
selected by `_get_today_record` (MySQL path) resp. the aliased columns
returned by `get_today_attendance` (SQLite path). -/
structure ExistingRec where
  attendance_id : Nat
  time_in : Option TimeOfDay
  time_out : Option TimeOfDay
deriving DecidableEq, Repr

/-- Result dictionary of `process_attendance` (the fields the claims
mention; the human-readable `message` is omitted).  The 12-hour display
strings are modelled by the same time-of-day value. -/
structure Outcome where
  success : Bool
  action : String
  time_in : Option TimeOfDay := none
  time_out : Option TimeOfDay := none
  hours_worked : Option ℚ := none
  attendance_id : Option Nat := none
deriving DecidableEq, Repr

/-- Embedding of `AttendanceLogger._get_today_record`: query the
central store if connected, otherwise the local buffer. -/
def get_today_record (s : LoggerState) (wid : Nat) (d : DateVal) :
    Option ExistingRec :=
  if s.mysql.connected then
    (mysqlFetchToday s.mysql wid d).map (fun r =>
      { attendance_id := r.attendance_id, time_in := r.time_in,
        time_out := r.time_out })
  else
    (get_today_attendance s.sqlite wid d).map (fun r =>
      { attendance_id := r.id, time_in := r.time_in,
        time_out := r.time_out })

/-- Embedding of `AttendanceLogger._record_timein`.  When the MySQL
insert succeeds, its `lastrowid` is the attendance id (the audit append
is external and non-fatal); a driver error makes `execute_query` return
`None` and drop the connection, after which (`if not attendance_id`)
the row is buffered into SQLite with `syncStatus = pending` instead. -/
def record_timein (s : LoggerState) (wid : Nat) (d : DateVal)
    (now : TimeOfDay) : Outcome × LoggerState :=
  if s.mysql.connected then
    if s.mysql.healthy then
      let aid := s.mysql.nextId
      let mysql' : MySQLState :=
        { s.mysql with
          table := s.mysql.table ++
            [{ attendance_id := aid, worker_id := wid,
               attendance_date := d, time_in := some now,
               time_out := none, status := "present",
               hours_worked := 0, is_archived := false }]
          nextId := aid + 1 }
      if aid ≠ 0 then
        ({ success := true, action := "timein", time_in := some now,
           attendance_id := some aid },
         { s with mysql := mysql' })
      else
        let (bid, sq') :=
          insert_attendance s.sqlite wid d (some now) none "present"
        ({ success := true, action := "timein", time_in := some now,
           attendance_id := some bid },
         { mysql := mysql', sqlite := sq' })
    else
      let (bid, sq') :=
        insert_attendance s.sqlite wid d (some now) none "present"
      ({ success := true, action := "timein", time_in := some now,
         attendance_id := some bid },
       { mysql := { s.mysql with connected := false }, sqlite := sq' })
  else
    let (bid, sq') :=
      insert_attendance s.sqlite wid d (some now) none "present"
    ({ success := true, action := "timein", time_in := some now,
       attendance_id := some bid },
     { s with sqlite := sq' })

/-- Embedding of `AttendanceLogger._record_timeout`.  Online: update
the central row by `attendance_id` (audit append external); a driver
error falls back to the SQLite `update_timeout`, drops the connection
and ignores the update result.  Offline: `update_timeout` on the
buffer; a zero-row update is only logged.  Either way the returned
dictionary reports `success = True, action = 'timeout'`. -/
def record_timeout (s : LoggerState) (wid : Nat) (d : DateVal)
    (now : TimeOfDay) (ex : ExistingRec) (tin : TimeOfDay) :
    Outcome × LoggerState :=
  let hours : ℚ := pyRound2 ((((now : Int) - (tin : Int) : Int) : ℚ) / 3600)
  let out : Outcome :=
    { success := true, action := "timeout", time_out := some now,
      hours_worked := some hours }
  if s.mysql.connected then
    if s.mysql.healthy then
      let table' := s.mysql.table.map (fun r =>
        if r.attendance_id = ex.attendance_id then
          { r with time_out := some now, hours_worked := hours }
        else r)
      (out, { s with mysql := { s.mysql with table := table' } })
    else
      let sq' := (update_timeout s.sqlite wid d now hours).2
      (out, { mysql := { s.mysql with connected := false }, sqlite := sq' })
  else
    let sq' := (update_timeout s.sqlite wid d now hours).2
    (out, { s with sqlite := sq' })

/-- Embedding of `AttendanceLogger.process_attendance` (same-day state
machine; `now` is the current time of day).  `_parse_time_value`
returns the current time when parsing fails (a `NULL` stored
`time_in`), hence `getD now`. -/
def process_attendance (cfg : Config) (s : LoggerState) (wid : Nat)
    (d : DateVal) (now : TimeOfDay) : Outcome × LoggerState :=
  match get_today_record s wid d with
  | none => record_timein s wid d now
  | some ex =>
    match ex.time_out with
    | some _ => ({ success := false, action := "completed" }, s)
    | none =>
      let tin := ex.time_in.getD now
      let elapsedSeconds : Int := (now : Int) - (tin : Int)
      let elapsedMinutes : ℚ := (elapsedSeconds : ℚ) / 60
      if elapsedMinutes < (cfg.minWorkIntervalMinutes : ℚ) then
        ({ success := false, action := "too_soon" }, s)
      else
        record_timeout s wid d now ex tin

/-- Retry counters of `SyncManager` (`self.retry_count`), modelled as
an association list keyed by the buffer id (the source keys the dict by
the string `"buffer_{id}"`, which is in bijection with the id). -/
abbrev RetryCounters := List (Nat × Nat)

/-- Value of `self.retry_count.get(key, 0)` (first matching entry, 0
when the key is absent). -/
def rcGet : RetryCounters → Nat → Nat
  | [], _ => 0
  | (k, v) :: rest, bid => if bid = k then v else rcGet rest bid

/-- Effect of `self.retry_count[key] = n`. -/
def rcSet (rc : RetryCounters) (bid n : Nat) : RetryCounters :=
  (bid, n) :: rc.filter (fun p => p.1 ≠ bid)

/-- Effect of `self.retry_count.pop(key, None)`. -/
def rcPop (rc : RetryCounters) (bid : Nat) : RetryCounters :=
  rc.filter (fun p => p.1 ≠ bid)

/-- State owned by `SyncManager`. -/
structure SyncState where
  mysql : MySQLState
  sqlite : SQLiteState
  retryCount : RetryCounters
deriving DecidableEq, Repr

/-- Counts returned by `sync_all` (Python ints, so they live in `Int`:
the HTTP path can in fact produce a negative `failed`, see below). -/
structure SyncResult where
  synced : Int
  failed : Int
  pending : Int
deriving DecidableEq, Repr

/-- Reconnection attempted by `fetch_all` / `sync_all` when the MySQL
connection is down (`self.connect()`). -/
def mysqlReconnect (m : MySQLState) : MySQLState :=
  if m.connected then m
  else if m.reconnectable then { m with connected := true } else m

/-- Embedding of `SyncManager._sync_record_mysql`.  On a live healthy
connection: look up the non-archived central row for (worker, date); if
one exists and the buffered record carries a `time_out`, update
`time_out`/`hours_worked` of that row where `time_out IS NULL`;
otherwise insert a new central row from the buffered fields.  Driver
errors are swallowed inside `execute_query`/`fetch_all` (which return
`None`/`[]`), so the method still returns `True`; its own `except`
only catches non-driver exceptions. -/
def sync_record_mysql (m : MySQLState) (record : BufferRow) :
    Bool × MySQLState :=
  let m1 := mysqlReconnect m
  if m1.connected && m1.healthy then
    match m1.table.find?
        (centralMatches record.worker_id record.attendance_date) with
    | some ex =>
      if record.time_out.isSome then
        (true, { m1 with table := m1.table.map (fun r =>
           if r.attendance_id = ex.attendance_id && r.time_out = none then
             { r with
               time_out := record.time_out
               hours_worked := record.hours_worked }
           else r) })
      else (true, m1)
    | none =>
      (true, { m1 with
        table := m1.table ++
          [{ attendance_id := m1.nextId, worker_id := record.worker_id,
             attendance_date := record.attendance_date,
             time_in := record.time_in, time_out := record.time_out,
             status := record.status,
             hours_worked := record.hours_worked,
             is_archived := false }]
        nextId := m1.nextId + 1 })
  else if m1.connected then
    (true, { m1 with connected := false })
  else
    (true, m1)

/-- Accumulator of the `for record in pending` loop of
`_sync_via_mysql`. -/
structure MysqlLoop where
  synced : Int
  failed : Int
  attempted : List Nat
  mysql : MySQLState
  sqlite : SQLiteState
  rc : RetryCounters
deriving DecidableEq, Repr

/-- Loop body of `SyncManager._sync_via_mysql`: a record whose retry
counter has reached `MAX_RETRY_ATTEMPTS` is skipped and counted failed;
otherwise the record is attempted, and on success marked synced (its
counter dropped), on failure counted failed (its counter bumped).
`attempted` records the buffer ids actually offered to the store. -/
def sync_via_mysql_loop (cfg : Config) :
    List BufferRow → MysqlLoop → MysqlLoop
  | [], acc => acc
  | record :: rest, acc =>
    let bid := record.id
    if cfg.maxRetryAttempts ≤ rcGet acc.rc bid then
      sync_via_mysql_loop cfg rest { acc with failed := acc.failed + 1 }
    else
      if (sync_record_mysql acc.mysql record).1 = true then
        sync_via_mysql_loop cfg rest
          { acc with
            synced := acc.synced + 1
            attempted := acc.attempted ++ [bid]
            mysql := (sync_record_mysql acc.mysql record).2
            sqlite := mark_synced acc.sqlite bid
            rc := rcPop acc.rc bid }
      else
        sync_via_mysql_loop cfg rest
          { acc with
            failed := acc.failed + 1
            attempted := acc.attempted ++ [bid]
            mysql := (sync_record_mysql acc.mysql record).2
            rc := rcSet acc.rc bid (rcGet acc.rc bid + 1) }

/-- Embedding of `SyncManager._sync_via_mysql`. -/
def sync_via_mysql (cfg : Config) (st : SyncState) :
    SyncResult × SyncState × List Nat :=
  let pending := get_pending_records st.sqlite
  let res := sync_via_mysql_loop cfg pending
    { synced := 0, failed := 0, attempted := [], mysql := st.mysql,
      sqlite := st.sqlite, rc := st.retryCount }
  ({ synced := res.synced, failed := res.failed,
     pending := (pending.length : Int) - res.synced - res.failed },
   { mysql := res.mysql, sqlite := res.sqlite, retryCount := res.rc },
   res.attempted)

/-- Possible responses of the remote sync endpoint, an environment
input of `_sync_via_http`: HTTP 200 with `success` and a `synced_ids`
list, HTTP 200 with `success = False`, a non-200 status, or a raised
requests exception. -/
inductive HttpResp where
  | ok (ackIds : List Nat)
  | rejected
  | httpError
  | netError
deriving DecidableEq, Repr

/-- Embedding of `SyncManager._sync_via_http`: submit all pending
records in one batched request; on a successful response, mark exactly
the acknowledged buffer ids synced and count `failed = len(pending) -
synced`; on any failure count everything failed.  The returned id list
is the `buffer_id` column of the submitted payload. -/
def sync_via_http (st : SyncState) (resp : HttpResp) :
    SyncResult × SyncState × List Nat :=
  let pending := get_pending_records st.sqlite
  if pending.isEmpty then
    ({ synced := 0, failed := 0, pending := 0 }, st, [])
  else
    let payloadIds := pending.map (fun r => r.id)
    match resp with
    | .ok ackIds =>
      let sqlite' := ackIds.foldl mark_synced st.sqlite
      let synced : Int := ackIds.length
      let failed : Int := (pending.length : Int) - synced
      ({ synced := synced, failed := failed,
         pending := (pending.length : Int) - synced - failed },
       { st with sqlite := sqlite' }, payloadIds)
    | _ =>
      let failed : Int := pending.length
      ({ synced := 0, failed := failed,
         pending := (pending.length : Int) - 0 - failed },
       st, payloadIds)

/-- State of `SyncManager` after `sync_all` successfully reconnects
MySQL (`self.mysql_db.connect()` sets `is_connected = True`). -/
def reconnectedState (st : SyncState) : SyncState :=
  { st with mysql := { st.mysql with connected := true } }

/-- Which transport a `sync_all` pass actually used. -/
inductive SyncPath where
  | mysqlPath
  | httpPath
  | noPath
deriving DecidableEq, Repr

/-- Embedding of `SyncManager.sync_all`: prefer a live MySQL
connection, then a successful reconnect, then the HTTP transport if an
API URL is configured; otherwise report everything still pending. -/
def sync_all (cfg : Config) (st : SyncState) (resp : HttpResp) :
    SyncResult × SyncState × List Nat × SyncPath :=
  if st.mysql.connected then
    ((sync_via_mysql cfg st).1, (sync_via_mysql cfg st).2.1,
     (sync_via_mysql cfg st).2.2, .mysqlPath)
  else if st.mysql.reconnectable then
    ((sync_via_mysql cfg (reconnectedState st)).1,
     (sync_via_mysql cfg (reconnectedState st)).2.1,
     (sync_via_mysql cfg (reconnectedState st)).2.2, .mysqlPath)
  else if cfg.apiConfigured then
    ((sync_via_http st resp).1, (sync_via_http st resp).2.1,
     (sync_via_http st resp).2.2, .httpPath)
  else
    ({ synced := 0, failed := 0,
       pending := (get_pending_records st.sqlite).length },
     st, [], .noPath)

/-- Python truthiness of an optional float (`if self.first_seen and
self.last_seen` treats both `None` and `0.0` as false). -/
def truthyQ (x : Option ℚ) : Bool :=
  match x with
  | some v => v ≠ 0
  | none => false

/-- State of `StabilityTracker` (worker name/code fields omitted: they
never influence control flow). -/
structure Tracker where
  worker_id : Option Nat
  first_seen : Option ℚ
  last_seen : Option ℚ
  frame_count : Nat
deriving DecidableEq, Repr

/-- Embedding of `StabilityTracker.update`: a change of worker restarts
the dwell (`first_seen = now`), then `last_seen` advances and the frame
count increments. -/
def Tracker.update (tr : Tracker) (w : Nat) (t : ℚ) : Tracker :=
  let tr1 :=
    if tr.worker_id ≠ some w then
      { tr with worker_id := some w, first_seen := some t, frame_count := 0 }
    else tr
  { tr1 with last_seen := some t, frame_count := tr1.frame_count + 1 }

/-- Embedding of `StabilityTracker.reset`. -/
def Tracker.reset : Tracker :=
  { worker_id := none, first_seen := none, last_seen := none,
    frame_count := 0 }

/-- Embedding of the `duration` property (with Python float
truthiness on `first_seen`/`last_seen`). -/
def Tracker.duration (tr : Tracker) : ℚ :=
  if truthyQ tr.first_seen && truthyQ tr.last_seen then
    tr.last_seen.getD 0 - tr.first_seen.getD 0
  else 0

/-- Embedding of `StabilityTracker.is_stable`. -/
def Tracker.isStable (cfg : Config) (tr : Tracker) : Bool :=
  cfg.stabilitySeconds ≤ tr.duration

/-- Embedding of the `is_active` property. -/
def Tracker.isActive (tr : Tracker) : Bool :=
  tr.worker_id.isSome && tr.last_seen.isSome

/-- State owned by the debounce gate inside `AttendanceApp`:
the stability tracker, `attendance_triggered_for`, and the
`cooldowns` map from worker id to cooldown expiry timestamp. -/
structure GateState where
  tracker : Tracker
  triggeredFor : Option Nat
  cooldowns : List (Nat × ℚ)
deriving DecidableEq, Repr

/-- Effect of `self.cooldowns[worker_id] = expiry`. -/
def cdSet (cd : List (Nat × ℚ)) (w : Nat) (v : ℚ) : List (Nat × ℚ) :=
  (w, v) :: cd.filter (fun p => p.1 ≠ w)

/-- Embedding of one call of `AttendanceApp._update_stability` after
primary-face selection: `obs = some w` when the primary recognized face
is worker `w`, `obs = none` when no face is recognized; `t` is the
current wall-clock time.  Returns the new gate state and the confirmed
trigger, if one was forwarded to the state machine
(`_process_attendance`, which also arms the cooldown). -/
def observe_gate (cfg : Config) (g : GateState) (obs : Option Nat)
    (t : ℚ) : GateState × Option Nat :=
  match obs with
  | some w =>
    let inCooldown :=
      match g.cooldowns.lookup w with
      | some e => decide (t < e)
      | none => false
    if inCooldown then (g, none)
    else
      let tracker' := g.tracker.update w t
      if tracker'.isStable cfg then
        if g.triggeredFor ≠ some w then
          ({ tracker := tracker', triggeredFor := some w,
             cooldowns := cdSet g.cooldowns w (t + cfg.cooldownSeconds) },
           some w)
        else ({ g with tracker := tracker' }, none)
      else ({ g with tracker := tracker' }, none)
  | none =>
    if g.tracker.isActive && truthyQ g.tracker.last_seen &&
        decide ((3 : ℚ) / 2 < t - g.tracker.last_seen.getD 0) then
      ({ tracker := Tracker.reset, triggeredFor := none,
         cooldowns := g.cooldowns }, none)
    else (g, none)

/-- Folding `observe_gate` over a sequence of timed observations,
collecting every confirmed trigger that was emitted. -/
def run_gate (cfg : Config) :
    GateState → List (Option Nat × ℚ) → GateState × List Nat
  | g, [] => (g, [])
  | g, ev :: rest =>
    ((run_gate cfg (observe_gate cfg g ev.1 ev.2).1 rest).1,
     (observe_gate cfg g ev.1 ev.2).2.toList ++
       (run_gate cfg (observe_gate cfg g ev.1 ev.2).1 rest).2)

/-! Theorems -/

/-- The reconnect step never changes the stored table. -/
theorem mysqlReconnect_table (m : MySQLState) :
    (mysqlReconnect m).table = m.table := by
  unfold mysqlReconnect
  split
  · rfl
  · split <;> rfl

/-- C1: Sync reconciliation is idempotent: for every buffered record
whose central row for (workerId, date) already has both timeIn and
timeOut set, running `_sync_record_mysql` again inserts no new central
row and changes no field of the existing central row (the table is
unchanged). -/
theorem c1_sync_record_mysql_idempotent (m : MySQLState)
    (record : BufferRow) (ex : CentralRow)
    (hnodup : (m.table.map (fun r => r.attendance_id)).Nodup)
    (hfind : m.table.find?
      (centralMatches record.worker_id record.attendance_date) = some ex)
    (hin : ex.time_in.isSome) (hout : ex.time_out.isSome) :
    (sync_record_mysql m record).2.table = m.table := by
  have hm1t : (mysqlReconnect m).table = m.table := mysqlReconnect_table m
  have hfind1 : (mysqlReconnect m).table.find?
      (centralMatches record.worker_id record.attendance_date) = some ex := by
    rw [hm1t]; exact hfind
  have hexmem : ex ∈ m.table := List.mem_of_find?_eq_some hfind
  unfold sync_record_mysql
  by_cases hch : ((mysqlReconnect m).connected && (mysqlReconnect m).healthy) = true
  · simp only [hch, if_true, hfind1]
    by_cases hto : record.time_out.isSome
    · simp only [hto, if_true]
      rw [hm1t]
      have hid : ∀ r ∈ m.table,
          (if r.attendance_id = ex.attendance_id && r.time_out = none then
            { r with
              time_out := record.time_out
              hours_worked := record.hours_worked }
          else r) = r := by
        intro r hr
        by_cases h1 : r.attendance_id = ex.attendance_id
        · have hre : r = ex :=
            List.inj_on_of_nodup_map hnodup hr hexmem h1
          subst hre
          rcases Option.isSome_iff_exists.mp hout with ⟨v, hv⟩
          simp [hv]
        · simp [h1]
      calc m.table.map _ = m.table.map id := List.map_congr_left hid
        _ = m.table := List.map_id m.table
    · simp [hto, hm1t]
  · simp only [Bool.not_eq_true] at hch
    simp only [hch, Bool.false_eq_true, if_false]
    split <;> simp [hm1t]

/-- Concrete witness states for the claim theorems. -/
def mW1 : MySQLState :=
  { connected := true, healthy := true, reconnectable := true
    table := [{ attendance_id := 1, worker_id := 7, attendance_date := 5,
                time_in := some 28800, time_out := some 30660,
                status := "present", hours_worked := 0,
                is_archived := false }]
    nextId := 2 }

/-- Buffered record replayed against the fully-synced central row. -/
def recW1 : BufferRow :=
  { id := 1, worker_id := 7, attendance_date := 5, time_in := some 28800,
    time_out := some 30660, status := "present", hours_worked := 0,
    sync_status := .pending, created_at := 1 }

/-- Witness for C1 at a concrete fully-synced central row. -/
theorem c1_sync_record_mysql_idempotent_witness :
    (sync_record_mysql mW1 recW1).2.table = mW1.table :=
  c1_sync_record_mysql_idempotent mW1 recW1
    { attendance_id := 1, worker_id := 7, attendance_date := 5,
      time_in := some 28800, time_out := some 30660,
      status := "present", hours_worked := 0, is_archived := false }
    (by decide) (by decide) (by decide) (by decide)

/-- C2: For every worker with no attendance record for today's date
(as looked up by the state machine), `process_attendance` returns a
TimedIn outcome (`success = True`, `action = 'timein'`) and appends to
one of the two stores a record whose `time_in` is the current time and
whose `time_out` is unset. -/
theorem c2_process_attendance_timein (cfg : Config) (s : LoggerState)
    (wid : Nat) (d : DateVal) (now : TimeOfDay)
    (hex : get_today_record s wid d = none) :
    ((process_attendance cfg s wid d now).1.success = true ∧
     (process_attendance cfg s wid d now).1.action = "timein" ∧
     (process_attendance cfg s wid d now).1.time_in = some now) ∧
    ((∃ aid, (process_attendance cfg s wid d now).2.mysql.table =
        s.mysql.table ++
          [{ attendance_id := aid, worker_id := wid, attendance_date := d,
             time_in := some now, time_out := none, status := "present",
             hours_worked := 0, is_archived := false }]) ∨
     (∃ bid c, (process_attendance cfg s wid d now).2.sqlite.buffer =
        s.sqlite.buffer ++
          [{ id := bid, worker_id := wid, attendance_date := d,
             time_in := some now, time_out := none, status := "present",
             hours_worked := 0, sync_status := .pending,
             created_at := c }])) := by
  have hpa : process_attendance cfg s wid d now = record_timein s wid d now := by
    unfold process_attendance
    rw [hex]
  rw [hpa]
  unfold record_timein insert_attendance
  by_cases hc : s.mysql.connected = true
  · by_cases hh : s.mysql.healthy = true
    · by_cases hz : s.mysql.nextId = 0
      · refine ⟨⟨?_, ?_, ?_⟩, .inl ⟨0, ?_⟩⟩ <;> simp [hc, hh, hz]
      · refine ⟨⟨?_, ?_, ?_⟩, .inl ⟨s.mysql.nextId, ?_⟩⟩ <;>
          simp [hc, hh, hz]
    · refine ⟨⟨?_, ?_, ?_⟩, .inr ⟨s.sqlite.nextId, s.sqlite.nextId, ?_⟩⟩ <;>
        simp [hc, eq_false_of_ne_true hh]
  · refine ⟨⟨?_, ?_, ?_⟩, .inr ⟨s.sqlite.nextId, s.sqlite.nextId, ?_⟩⟩ <;>
      simp [eq_false_of_ne_true hc]

/-- Concrete offline dual-store state with an empty buffer. -/
def sW2 : LoggerState :=
  { mysql := { connected := false, healthy := false,
               reconnectable := false, table := [], nextId := 1 }
    sqlite := { buffer := [], nextId := 1 } }

/-- Witness for C2: worker 7 with no record today, trigger at 08:00:00
(28800 seconds). -/
theorem c2_process_attendance_timein_witness :
    ((process_attendance defaultConfig sW2 7 5 28800).1.success = true ∧
     (process_attendance defaultConfig sW2 7 5 28800).1.action = "timein" ∧
     (process_attendance defaultConfig sW2 7 5 28800).1.time_in = some 28800) ∧
    ((∃ aid, (process_attendance defaultConfig sW2 7 5 28800).2.mysql.table =
        sW2.mysql.table ++
          [{ attendance_id := aid, worker_id := 7, attendance_date := 5,
             time_in := some 28800, time_out := none, status := "present",
             hours_worked := 0, is_archived := false }]) ∨
     (∃ bid c, (process_attendance defaultConfig sW2 7 5 28800).2.sqlite.buffer =
        sW2.sqlite.buffer ++
          [{ id := bid, worker_id := 7, attendance_date := 5,
             time_in := some 28800, time_out := none, status := "present",
             hours_worked := 0, sync_status := .pending,
             created_at := c }])) :=
  c2_process_attendance_timein defaultConfig sW2 7 5 28800 (by decide)

/-- C3: For every worker whose today's record has `time_in` set and
`time_out` unset, if the elapsed minutes since `time_in` are strictly
below the configured minimum work interval, `process_attendance`
returns a TooSoon outcome and performs no mutation: the state is
returned unchanged. -/
theorem c3_too_soon_no_mutation (cfg : Config) (s : LoggerState)
    (wid : Nat) (d : DateVal) (now tin : TimeOfDay) (ex : ExistingRec)
    (hex : get_today_record s wid d = some ex)
    (htin : ex.time_in = some tin) (hto : ex.time_out = none)
    (helapsed : ((((now : Int) - (tin : Int) : Int) : ℚ) / 60) <
      (cfg.minWorkIntervalMinutes : ℚ)) :
    process_attendance cfg s wid d now =
      ({ success := false, action := "too_soon" }, s) := by
  unfold process_attendance
  rw [hex]
  simp only [hto, htin, Option.getD_some]
  rw [if_pos helapsed]

/-- Concrete offline state: worker 7 timed in at 08:00:00, record
still open. -/
def rowW3 : BufferRow :=
  { id := 1, worker_id := 7, attendance_date := 5, time_in := some 28800,
    time_out := none, status := "present", hours_worked := 0,
    sync_status := .pending, created_at := 1 }

def sW3 : LoggerState :=
  { mysql := { connected := false, healthy := false,
               reconnectable := false, table := [], nextId := 1 }
    sqlite := { buffer := [rowW3], nextId := 2 } }

/-- Witness for C3: second trigger at 08:05:00 (29100 seconds) with a
30-minute minimum interval. -/
theorem c3_too_soon_no_mutation_witness :
    process_attendance defaultConfig sW3 7 5 29100 =
      ({ success := false, action := "too_soon" }, sW3) :=
  c3_too_soon_no_mutation defaultConfig sW3 7 5 29100 28800
    { attendance_id := 1, time_in := some 28800, time_out := none }
    (by decide) (by decide) (by decide) (by norm_num [defaultConfig])

/-- Concrete offline state for C4: the only buffer row for worker 7
today already has `sync_status = 'synced'` (it was synced while its
`time_out` was still NULL), so the `update_timeout` WHERE clause
(`time_out IS NULL AND sync_status = 'pending'`) matches zero rows. -/
def rowW4 : BufferRow :=
  { id := 1, worker_id := 7, attendance_date := 5, time_in := some 28800,
    time_out := none, status := "present", hours_worked := 0,
    sync_status := .synced, created_at := 1 }

def sW4 : LoggerState :=
  { mysql := { connected := false, healthy := false,
               reconnectable := false, table := [], nextId := 1 }
    sqlite := { buffer := [rowW4], nextId := 2 } }

/-- C4 (code bug): a timeOut mutation whose local-buffer update affects
zero rows is nevertheless reported as a successful `'timeout'` outcome
by `process_attendance`, and no stored record changes — the failure is
only logged, never surfaced as a StoreError.  This theorem evaluates
the code on the failing input (worker 7, trigger at 08:31:00 against a
buffer whose only row is already marked synced). -/
theorem c4_zero_row_timeout_reported_success :
    (process_attendance defaultConfig sW4 7 5 30660).1.success = true ∧
    (process_attendance defaultConfig sW4 7 5 30660).1.action = "timeout" ∧
    (process_attendance defaultConfig sW4 7 5 30660).2.sqlite = sW4.sqlite ∧
    (update_timeout sW4.sqlite 7 5 30660
      (pyRound2 ((1860 : ℚ) / 3600))).1 = false := by
  have hex : get_today_record sW4 7 5 =
      some { attendance_id := 1, time_in := some 28800, time_out := none } := by
    decide
  have h1 : process_attendance defaultConfig sW4 7 5 30660 =
      record_timeout sW4 7 5 30660
        { attendance_id := 1, time_in := some 28800, time_out := none }
        28800 := by
    unfold process_attendance
    rw [hex]
    simp only [Option.getD_some]
    rw [if_neg (by norm_num [defaultConfig])]
  refine ⟨?_, ?_, ?_, ?_⟩
  · rw [h1]; rfl
  · rw [h1]; rfl
  · rw [h1]; decide
  · decide

/-- The half-to-even integer rounding never turns a non-negative
rational negative. -/
theorem roundHalfEven_nonneg (q : ℚ) (h : 0 ≤ q) :
    0 ≤ roundHalfEven q := by
  have hn : (0 : Int) ≤ ⌊q⌋ := Int.floor_nonneg.mpr h
  unfold roundHalfEven
  dsimp only
  split
  · exact hn
  · split
    · omega
    · split <;> omega

/-- Python `round(x, 2)` of a non-negative value is non-negative. -/
theorem pyRound2_nonneg (q : ℚ) (h : 0 ≤ q) : 0 ≤ pyRound2 q := by
  unfold pyRound2
  have := roundHalfEven_nonneg (q * 100) (by positivity)
  positivity

/-- C9: whenever `process_attendance` records a timeOut, the returned
`hours_worked` — and the `hours_worked` field of every store row the
call modifies — equals (timeOut − timeIn) in hours rounded to two
decimal places (Python half-to-even rounding), and is non-negative
provided the configured minimum interval is non-negative. -/
theorem c9_hours_worked_rounded (cfg : Config) (s : LoggerState)
    (wid : Nat) (d : DateVal) (now tin : TimeOfDay) (ex : ExistingRec)
    (h : ℚ)
    (hex : get_today_record s wid d = some ex)
    (htin : ex.time_in = some tin) (hto : ex.time_out = none)
    (hmin : 0 ≤ cfg.minWorkIntervalMinutes)
    (helapsed : ¬ ((((now : Int) - (tin : Int) : Int) : ℚ) / 60 <
      (cfg.minWorkIntervalMinutes : ℚ)))
    (hh : h = pyRound2 ((((now : Int) - (tin : Int) : Int) : ℚ) / 3600)) :
    (process_attendance cfg s wid d now).1.action = "timeout" ∧
    (process_attendance cfg s wid d now).1.hours_worked = some h ∧
    0 ≤ h ∧
    (∀ r ∈ (process_attendance cfg s wid d now).2.mysql.table,
      r ∈ s.mysql.table ∨ (r.time_out = some now ∧ r.hours_worked = h)) ∧
    (∀ r ∈ (process_attendance cfg s wid d now).2.sqlite.buffer,
      r ∈ s.sqlite.buffer ∨ (r.time_out = some now ∧ r.hours_worked = h)) := by
  have hpa : process_attendance cfg s wid d now =
      record_timeout s wid d now ex tin := by
    unfold process_attendance
    rw [hex]
    simp only [hto, htin, Option.getD_some]
    rw [if_neg helapsed]
  have hnn : 0 ≤ h := by
    have h60 : (0 : ℚ) ≤ (((now : Int) - (tin : Int) : Int) : ℚ) / 60 :=
      le_trans (by exact_mod_cast hmin) (not_lt.mp helapsed)
    have hsec : (0 : ℚ) ≤ (((now : Int) - (tin : Int) : Int) : ℚ) := by
      by_contra hneg
      push_neg at hneg
      have : (((now : Int) - (tin : Int) : Int) : ℚ) / 60 < 0 :=
        div_neg_of_neg_of_pos hneg (by norm_num)
      linarith
    rw [hh]
    exact pyRound2_nonneg _ (div_nonneg hsec (by norm_num))
  rw [hpa]
  unfold record_timeout
  rw [← hh]
  refine ?_
  by_cases hc : s.mysql.connected = true
  · by_cases hhy : s.mysql.healthy = true
    · simp only [hc, hhy, if_true]
      refine ⟨trivial, trivial, hnn, ?_, ?_⟩
      · intro r hr
        rcases List.mem_map.mp hr with ⟨r0, hr0, hfr⟩
        by_cases hid : r0.attendance_id = ex.attendance_id
        · right
          rw [← hfr]
          simp [hid]
        · left
          rw [← hfr]
          simp only [hid, if_false]
          exact hr0
      · intro r hr
        exact .inl hr
    · simp only [hc, if_true, eq_false_of_ne_true hhy, Bool.false_eq_true,
        if_false]
      refine ⟨trivial, trivial, hnn, ?_, ?_⟩
      · intro r hr
        exact .inl hr
      · intro r hr
        unfold update_timeout at hr
        rcases List.mem_map.mp hr with ⟨r0, hr0, hfr⟩
        by_cases hm : timeoutMatches wid d r0 = true
        · right
          rw [← hfr]
          simp [hm]
        · left
          rw [← hfr]
          simp only [hm, Bool.false_eq_true, if_false]
          exact hr0
  · simp only [eq_false_of_ne_true hc, Bool.false_eq_true, if_false]
    refine ⟨trivial, trivial, hnn, ?_, ?_⟩
    · intro r hr
      exact .inl hr
    · intro r hr
      unfold update_timeout at hr
      rcases List.mem_map.mp hr with ⟨r0, hr0, hfr⟩
      by_cases hm : timeoutMatches wid d r0 = true
      · right
        rw [← hfr]
        simp [hm]
      · left
        rw [← hfr]
        simp only [hm, Bool.false_eq_true, if_false]
        exact hr0

/-- Witness for C9: worker 7 timed in at 08:00:00, trigger at 08:31:00
with a 30-minute minimum interval yields hoursWorked = 0.52 = 13/25. -/
theorem c9_hours_worked_rounded_witness :
    (process_attendance defaultConfig sW3 7 5 30660).1.action = "timeout" ∧
    (process_attendance defaultConfig sW3 7 5 30660).1.hours_worked =
      some (13/25 : ℚ) ∧
    (0 : ℚ) ≤ 13/25 ∧
    (∀ r ∈ (process_attendance defaultConfig sW3 7 5 30660).2.mysql.table,
      r ∈ sW3.mysql.table ∨
        (r.time_out = some 30660 ∧ r.hours_worked = (13/25 : ℚ))) ∧
    (∀ r ∈ (process_attendance defaultConfig sW3 7 5 30660).2.sqlite.buffer,
      r ∈ sW3.sqlite.buffer ∨
        (r.time_out = some 30660 ∧ r.hours_worked = (13/25 : ℚ))) :=
  c9_hours_worked_rounded defaultConfig sW3 7 5 30660 28800
    { attendance_id := 1, time_in := some 28800, time_out := none }
    (13/25) (by decide) (by decide) (by decide) (by decide)
    (by norm_num [defaultConfig]) (by norm_num [pyRound2, roundHalfEven])

/-- Characterization of the last element of a filtered list: it splits
the list into a prefix, the element, and a suffix containing no further
match (this is what `ORDER BY created_at DESC LIMIT 1` returns). -/
theorem getLast?_filter_eq_some {α} (p : α → Bool) (l : List α) (a : α)
    (h : (l.filter p).getLast? = some a) :
    ∃ l1 l2, l = l1 ++ a :: l2 ∧ p a = true ∧ ∀ x ∈ l2, p x = false := by
  induction l using List.reverseRecOn with
  | nil => simp at h
  | append_singleton l' x ih =>
    rw [List.filter_append] at h
    by_cases hx : p x = true
    · rw [List.filter_singleton, hx, cond_true, List.getLast?_concat] at h
      have hxa : x = a := by injection h
      subst hxa
      exact ⟨l', [], rfl, hx, by simp⟩
    · have hx' : p x = false := by
        cases hpx : p x
        · rfl
        · exact absurd hpx hx
      rw [List.filter_singleton, hx', cond_false, List.append_nil] at h
      rcases ih h with ⟨l1, l2, hsplit, hpa, hsuffix⟩
      refine ⟨l1, l2 ++ [x], ?_, hpa, ?_⟩
      · rw [hsplit]
        simp
      · intro y hy
        rcases List.mem_append.mp hy with hy | hy
        · exact hsuffix y hy
        · rw [List.mem_singleton.mp hy]
          exact hx'

/-- Concrete offline state for C6: the only buffer row for worker 7
today is already marked synced. -/
def rowW6 : BufferRow :=
  { id := 1, worker_id := 7, attendance_date := 5, time_in := some 28800,
    time_out := none, status := "present", hours_worked := 0,
    sync_status := .synced, created_at := 1 }

def sW6 : LoggerState :=
  { mysql := { connected := false, healthy := false,
               reconnectable := false, table := [], nextId := 1 }
    sqlite := { buffer := [rowW6], nextId := 2 } }

/-- C6 counterexample: with the central store unreachable, the state
machine's lookup returns the most recent buffer row for the worker and
date even when that row is already synced; the claim's "most recent
unsynced (syncStatus = pending) record" lookup would return nothing
here. -/
theorem c6_lookup_counterexample :
    get_today_record sW6 7 5 =
      some { attendance_id := 1, time_in := some 28800, time_out := none } ∧
    get_today_attendance_unsynced_spec sW6.sqlite 7 5 = none := by
  decide

/-- C6 (amended): the lookup queries the central store first when it is
connected; otherwise it queries the local buffer and returns the most
recent record for that worker and date REGARDLESS of sync status: the
lookup is empty exactly when no buffer row matches the worker and date,
and a returned record is the projection of a matching buffer row after
which no further matching row occurs. -/
theorem c6_lookup_central_first_then_buffer (s : LoggerState)
    (wid : Nat) (d : DateVal) :
    (s.mysql.connected = true →
      get_today_record s wid d =
        (mysqlFetchToday s.mysql wid d).map (fun r =>
          { attendance_id := r.attendance_id, time_in := r.time_in,
            time_out := r.time_out })) ∧
    (s.mysql.connected = false →
      ((get_today_record s wid d = none ↔
          ∀ r ∈ s.sqlite.buffer, bufMatches wid d r = false) ∧
       (∀ e, get_today_record s wid d = some e →
          ∃ l1 r l2, s.sqlite.buffer = l1 ++ r :: l2 ∧
            bufMatches wid d r = true ∧
            e = { attendance_id := r.id, time_in := r.time_in,
                  time_out := r.time_out } ∧
            ∀ x ∈ l2, bufMatches wid d x = false))) := by
  constructor
  · intro hc
    unfold get_today_record
    rw [if_pos hc]
  · intro hc
    have hoff : get_today_record s wid d =
        (get_today_attendance s.sqlite wid d).map (fun r =>
          { attendance_id := r.id, time_in := r.time_in,
            time_out := r.time_out }) := by
      unfold get_today_record
      rw [hc]
      simp
    constructor
    · rw [hoff]
      unfold get_today_attendance
      constructor
      · intro hnone
        have : (s.sqlite.buffer.filter (bufMatches wid d)).getLast? = none := by
          cases hgl : (s.sqlite.buffer.filter (bufMatches wid d)).getLast?
          · rfl
          · rw [hgl] at hnone
            simp at hnone
        have hfil : s.sqlite.buffer.filter (bufMatches wid d) = [] := by
          cases hf : s.sqlite.buffer.filter (bufMatches wid d)
          · rfl
          · rw [hf] at this
            simp at this
        intro r hr
        by_contra hget
        have hrt : bufMatches wid d r = true := by
          cases hb : bufMatches wid d r
          · exact absurd hb hget
          · rfl
        have : r ∈ s.sqlite.buffer.filter (bufMatches wid d) :=
          List.mem_filter.mpr ⟨hr, hrt⟩
        rw [hfil] at this
        simp at this
      · intro hall
        have hfil : s.sqlite.buffer.filter (bufMatches wid d) = [] :=
          List.filter_eq_nil_iff.mpr (fun r hr => by
            rw [hall r hr]
            simp)
        rw [hfil]
        rfl
    · intro e he
      rw [hoff] at he
      rcases Option.map_eq_some'.mp he with ⟨r, hget, hproj⟩
      rcases getLast?_filter_eq_some _ _ _ hget with
        ⟨l1, l2, hsplit, hpa, hsuffix⟩
      exact ⟨l1, r, l2, hsplit, hpa, hproj.symm, hsuffix⟩

/-- Witness for the amended C6 at the concrete offline state `sW6`. -/
theorem c6_lookup_central_first_then_buffer_witness :
    (sW6.mysql.connected = true →
      get_today_record sW6 7 5 =
        (mysqlFetchToday sW6.mysql 7 5).map (fun r =>
          { attendance_id := r.attendance_id, time_in := r.time_in,
            time_out := r.time_out })) ∧
    (sW6.mysql.connected = false →
      ((get_today_record sW6 7 5 = none ↔
          ∀ r ∈ sW6.sqlite.buffer, bufMatches 7 5 r = false) ∧
       (∀ e, get_today_record sW6 7 5 = some e →
          ∃ l1 r l2, sW6.sqlite.buffer = l1 ++ r :: l2 ∧
            bufMatches 7 5 r = true ∧
            e = { attendance_id := r.id, time_in := r.time_in,
                  time_out := r.time_out } ∧
            ∀ x ∈ l2, bufMatches 7 5 x = false))) :=
  c6_lookup_central_first_then_buffer sW6 7 5

/-- Folding `mark_synced` over a list of buffer ids marks exactly the
rows whose id occurs in the list. -/
theorem foldl_mark_synced (st : SQLiteState) (ack : List Nat) :
    (ack.foldl mark_synced st).buffer =
      st.buffer.map (fun r =>
        if r.id ∈ ack then { r with sync_status := .synced } else r) := by
  induction ack generalizing st with
  | nil => simp
  | cons a t ih =>
    rw [List.foldl_cons, ih]
    unfold mark_synced
    rw [List.map_map]
    apply List.map_congr_left
    intro r _
    by_cases hra : r.id = a
    · simp only [Function.comp, hra, if_true, if_pos rfl]
      by_cases hin : a ∈ t
      · simp [hin, List.mem_cons]
      · simp [hin, List.mem_cons]
    · simp only [Function.comp, hra, if_false, if_neg hra, List.mem_cons]
      by_cases hin : r.id ∈ t
      · simp [hin, hra]
      · simp [hin, hra]

/-- C8: in the remote-API transport, after a successful response
exactly the acknowledged buffer ids are marked synced: every buffer row
whose id is acknowledged appears afterwards with `syncStatus = synced`,
and every row whose id is not acknowledged is kept completely unchanged
(in particular a pending row stays pending, so no event is dropped). -/
theorem c8_http_marks_exactly_acked (st : SyncState) (ack : List Nat)
    (r : BufferRow) (hr : r ∈ st.sqlite.buffer) :
    (r.id ∈ ack →
      { r with sync_status := .synced } ∈
        (sync_via_http st (.ok ack)).2.1.sqlite.buffer) ∧
    (r.id ∉ ack → r ∈ (sync_via_http st (.ok ack)).2.1.sqlite.buffer) := by
  unfold sync_via_http
  by_cases hemp : (get_pending_records st.sqlite).isEmpty = true
  · simp only [hemp, if_true]
    constructor
    · intro _
      have hrs : r.sync_status = .synced := by
        have hfil : st.sqlite.buffer.filter
            (fun q => q.sync_status = SyncStatus.pending) = [] := by
          unfold get_pending_records at hemp
          exact List.isEmpty_iff.mp hemp
        cases hs : r.sync_status
        · exfalso
          have : r ∈ st.sqlite.buffer.filter
              (fun q => q.sync_status = SyncStatus.pending) :=
            List.mem_filter.mpr ⟨hr, by simp [hs]⟩
          rw [hfil] at this
          simp at this
        · rfl
      have : { r with sync_status := SyncStatus.synced } = r := by
        cases r
        simp_all
      rw [this]
      exact hr
    · intro _
      exact hr
  · simp only [hemp, Bool.false_eq_true, if_false]
    constructor
    · intro hid
      show { r with sync_status := .synced } ∈
        (ack.foldl mark_synced st.sqlite).buffer
      rw [foldl_mark_synced]
      exact List.mem_map.mpr ⟨r, hr, by rw [if_pos hid]⟩
    · intro hid
      show r ∈ (ack.foldl mark_synced st.sqlite).buffer
      rw [foldl_mark_synced]
      exact List.mem_map.mpr ⟨r, hr, by rw [if_neg hid]⟩

/-- Concrete sync state with two pending buffer rows, ids 1 and 2. -/
def rowW8a : BufferRow :=
  { id := 1, worker_id := 7, attendance_date := 5, time_in := some 28800,
    time_out := none, status := "present", hours_worked := 0,
    sync_status := .pending, created_at := 1 }

def rowW8b : BufferRow :=
  { id := 2, worker_id := 9, attendance_date := 5, time_in := some 29000,
    time_out := none, status := "present", hours_worked := 0,
    sync_status := .pending, created_at := 2 }

def stW8 : SyncState :=
  { mysql := { connected := false, healthy := false,
               reconnectable := false, table := [], nextId := 1 }
    sqlite := { buffer := [rowW8a, rowW8b], nextId := 3 }
    retryCount := [] }

/-- Witness for C8: the server acknowledges only buffer id 1. -/
theorem c8_http_marks_exactly_acked_witness :
    (rowW8b.id ∈ [1] →
      { rowW8b with sync_status := .synced } ∈
        (sync_via_http stW8 (.ok [1])).2.1.sqlite.buffer) ∧
    (rowW8b.id ∉ [1] →
      rowW8b ∈ (sync_via_http stW8 (.ok [1])).2.1.sqlite.buffer) :=
  c8_http_marks_exactly_acked stW8 [1] rowW8b (by decide)

/-- Dropping the entries of a different key does not change a retry
counter read. -/
theorem rcGet_filter_ne_key (l : RetryCounters) (k b : Nat) (h : k ≠ b) :
    rcGet (l.filter (fun p => p.1 ≠ b)) k = rcGet l k := by
  induction l with
  | nil => rfl
  | cons hd tl ih =>
    rcases hd with ⟨k', v⟩
    rw [List.filter_cons]
    by_cases hk' : k' = b
    · have hcond : (decide (((k', v) : Nat × Nat).1 ≠ b)) = false := by
        simp [hk']
      rw [hcond, if_neg Bool.false_ne_true, ih]
      have hkk : ¬ (k = k') := fun he => h (he.trans hk')
      conv_rhs => rw [rcGet, if_neg hkk]
    · have hcond : (decide (((k', v) : Nat × Nat).1 ≠ b)) = true := by
        simp [hk']
      rw [hcond, if_pos rfl]
      by_cases hkk : k = k'
      · rw [rcGet, if_pos hkk]
        conv_rhs => rw [rcGet, if_pos hkk]
      · rw [rcGet, if_neg hkk, ih]
        conv_rhs => rw [rcGet, if_neg hkk]

/-- A `pop` of another buffer id leaves the retry counter unchanged. -/
theorem rcGet_rcPop_ne (rc : RetryCounters) (k b : Nat) (h : k ≠ b) :
    rcGet (rcPop rc b) k = rcGet rc k := by
  unfold rcPop
  exact rcGet_filter_ne_key rc k b h

/-- A `set` of another buffer id leaves the retry counter unchanged. -/
theorem rcGet_rcSet_ne (rc : RetryCounters) (k b n : Nat) (h : k ≠ b) :
    rcGet (rcSet rc b n) k = rcGet rc k := by
  unfold rcSet
  rw [rcGet, if_neg h]
  exact rcGet_filter_ne_key rc k b h

/-- A buffer row whose id is not marked survives `mark_synced`
unchanged. -/
theorem mem_mark_synced_of_ne (st : SQLiteState) (bid : Nat)
    (r : BufferRow) (hr : r ∈ st.buffer) (h : r.id ≠ bid) :
    r ∈ (mark_synced st bid).buffer := by
  unfold mark_synced
  exact List.mem_map.mpr ⟨r, hr, by rw [if_neg h]⟩

/-- Records whose buffer id does not occur in the remaining work list
are never touched by the rest of a `_sync_via_mysql` pass: their
attempt status, retry counter and buffer row are preserved and the
failure count never decreases. -/
theorem sync_via_mysql_loop_no_touch (cfg : Config)
    (records : List BufferRow) (acc : MysqlLoop) (x : Nat)
    (hx : ∀ q ∈ records, q.id ≠ x) :
    ((x ∈ (sync_via_mysql_loop cfg records acc).attempted ↔
        x ∈ acc.attempted) ∧
     rcGet (sync_via_mysql_loop cfg records acc).rc x = rcGet acc.rc x ∧
     acc.failed ≤ (sync_via_mysql_loop cfg records acc).failed ∧
     (∀ row, row.id = x → row ∈ acc.sqlite.buffer →
        row ∈ (sync_via_mysql_loop cfg records acc).sqlite.buffer)) := by
  induction records generalizing acc with
  | nil =>
    exact ⟨Iff.rfl, rfl, le_refl _, fun row _ h => h⟩
  | cons q rest ih =>
    have hqx : q.id ≠ x := hx q (List.mem_cons_self q rest)
    have hxrest : ∀ p ∈ rest, p.id ≠ x :=
      fun p hp => hx p (List.mem_cons_of_mem q hp)
    unfold sync_via_mysql_loop
    by_cases hskip : cfg.maxRetryAttempts ≤ rcGet acc.rc q.id
    · rw [if_pos hskip]
      rcases ih _ hxrest with ⟨h1, h2, h3, h4⟩
      exact ⟨h1, h2, le_trans (le_of_lt (lt_add_one acc.failed)) h3, h4⟩
    · rw [if_neg hskip]
      by_cases hok : (sync_record_mysql acc.mysql q).1 = true
      · rw [if_pos hok]
        rcases ih _ hxrest with ⟨h1, h2, h3, h4⟩
        refine ⟨?_, ?_, h3, ?_⟩
        · rw [h1]
          simp [List.mem_append, Ne.symm hqx]
        · rw [h2]
          exact rcGet_rcPop_ne acc.rc x q.id (Ne.symm hqx)
        · intro row hrow hmem
          exact h4 row hrow
            (mem_mark_synced_of_ne acc.sqlite q.id row hmem
              (by rw [hrow]; exact Ne.symm hqx))
      · rw [if_neg hok]
        rcases ih _ hxrest with ⟨h1, h2, h3, h4⟩
        refine ⟨?_, ?_, le_trans (le_of_lt (lt_add_one acc.failed)) h3, h4⟩
        · rw [h1]
          simp [List.mem_append, Ne.symm hqx]
        · rw [h2]
          exact rcGet_rcSet_ne acc.rc x q.id _ (Ne.symm hqx)

/-- Core of the amended C5: inside a `_sync_via_mysql` pass, a pending
record whose retry counter has reached the maximum is skipped — never
offered to the store — and counted in the failure total; its buffer row
and its counter survive the pass unchanged. -/
theorem sync_via_mysql_loop_skips_maxed (cfg : Config)
    (records : List BufferRow) (acc : MysqlLoop) (r : BufferRow)
    (hmem : r ∈ records)
    (hnodup : (records.map (fun q => q.id)).Nodup)
    (hrc : cfg.maxRetryAttempts ≤ rcGet acc.rc r.id) :
    ((r.id ∈ (sync_via_mysql_loop cfg records acc).attempted ↔
        r.id ∈ acc.attempted) ∧
     rcGet (sync_via_mysql_loop cfg records acc).rc r.id =
       rcGet acc.rc r.id ∧
     acc.failed + 1 ≤ (sync_via_mysql_loop cfg records acc).failed ∧
     (r ∈ acc.sqlite.buffer →
        r ∈ (sync_via_mysql_loop cfg records acc).sqlite.buffer)) := by
  induction records generalizing acc with
  | nil => simp at hmem
  | cons q rest ih =>
    rw [List.map_cons, List.nodup_cons] at hnodup
    rcases hnodup with ⟨hqnotin, hnodup'⟩
    rcases List.mem_cons.mp hmem with hqr | hrrest
    · subst hqr
      unfold sync_via_mysql_loop
      rw [if_pos hrc]
      have hxrest : ∀ p ∈ rest, p.id ≠ r.id := by
        intro p hp hpq
        exact hqnotin (hpq ▸ List.mem_map_of_mem (fun z => z.id) hp)
      rcases sync_via_mysql_loop_no_touch cfg rest
        { acc with failed := acc.failed + 1 } r.id hxrest with
        ⟨h1, h2, h3, h4⟩
      exact ⟨h1, h2, h3, h4 r rfl⟩
    · have hqr : q.id ≠ r.id := by
        intro he
        exact hqnotin (he ▸ List.mem_map_of_mem (fun z => z.id) hrrest)
      unfold sync_via_mysql_loop
      by_cases hskip : cfg.maxRetryAttempts ≤ rcGet acc.rc q.id
      · rw [if_pos hskip]
        rcases ih { acc with failed := acc.failed + 1 } hrrest hnodup'
          hrc with ⟨h1, h2, h3, h4⟩
        exact ⟨h1, h2, le_trans (le_of_lt (lt_add_one _)) h3, h4⟩
      · rw [if_neg hskip]
        by_cases hok : (sync_record_mysql acc.mysql q).1 = true
        · rw [if_pos hok]
          have hrc' : cfg.maxRetryAttempts ≤
              rcGet (rcPop acc.rc q.id) r.id := by
            rw [rcGet_rcPop_ne acc.rc r.id q.id (Ne.symm hqr)]
            exact hrc
          rcases ih
            { acc with
              synced := acc.synced + 1
              attempted := acc.attempted ++ [q.id]
              mysql := (sync_record_mysql acc.mysql q).2
              sqlite := mark_synced acc.sqlite q.id
              rc := rcPop acc.rc q.id } hrrest hnodup' hrc' with
            ⟨h1, h2, h3, h4⟩
          refine ⟨?_, ?_, h3, ?_⟩
          · rw [h1]
            simp [List.mem_append, Ne.symm hqr]
          · rw [h2]
            exact rcGet_rcPop_ne acc.rc r.id q.id (Ne.symm hqr)
          · intro hbuf
            exact h4 (mem_mark_synced_of_ne acc.sqlite q.id r hbuf
              (Ne.symm hqr))
        · rw [if_neg hok]
          have hrc' : cfg.maxRetryAttempts ≤
              rcGet (rcSet acc.rc q.id (rcGet acc.rc q.id + 1)) r.id := by
            rw [rcGet_rcSet_ne acc.rc r.id q.id _ (Ne.symm hqr)]
            exact hrc
          rcases ih
            { acc with
              failed := acc.failed + 1
              attempted := acc.attempted ++ [q.id]
              mysql := (sync_record_mysql acc.mysql q).2
              rc := rcSet acc.rc q.id (rcGet acc.rc q.id + 1) } hrrest
            hnodup' hrc' with ⟨h1, h2, h3, h4⟩
          refine ⟨?_, ?_, le_trans (le_of_lt (lt_add_one _)) h3, h4⟩
          · rw [h1]
            simp [List.mem_append, Ne.symm hqr]
          · rw [h2]
            exact rcGet_rcSet_ne acc.rc r.id q.id _ (Ne.symm hqr)

/-- C5 counterexample setup: buffer id 1 is pending and its retry
counter already equals `MAX_RETRY_ATTEMPTS = 3`; MySQL is down and not
reconnectable, and a remote API endpoint is configured. -/
def cfgW5 : Config :=
  { minWorkIntervalMinutes := 30, maxRetryAttempts := 3,
    stabilitySeconds := 3, cooldownSeconds := 60, apiConfigured := true }

def rowW5 : BufferRow :=
  { id := 1, worker_id := 7, attendance_date := 5, time_in := some 28800,
    time_out := none, status := "present", hours_worked := 0,
    sync_status := .pending, created_at := 1 }

def stW5 : SyncState :=
  { mysql := { connected := false, healthy := false,
               reconnectable := false, table := [], nextId := 1 }
    sqlite := { buffer := [rowW5], nextId := 2 }
    retryCount := [(1, 3)] }

/-- C5 counterexample: a record whose retry counter has reached the
configured maximum IS attempted again by `sync_all` — the pass takes
the HTTP transport, which does not consult the retry counters, and
submits buffer id 1 in its payload. -/
theorem c5_maxed_record_resubmitted_counterexample :
    (sync_all cfgW5 stW5 (.ok [])).2.2.1 = [1] ∧
    (sync_all cfgW5 stW5 (.ok [])).2.2.2 = SyncPath.httpPath ∧
    cfgW5.maxRetryAttempts ≤ rcGet stW5.retryCount 1 := by
  decide

/-- C5 (amended): a pending record whose retry counter has reached the
configured maximum is excluded from direct-MySQL sync passes — it is
never offered to the central store, it is counted in the returned
`failed` total (surfaced, not silently dropped), and its buffer row and
counter survive the pass unchanged — but the HTTP transport does not
consult the retry counters and still submits the record. -/
theorem c5_maxed_record_skipped_by_mysql_pass (cfg : Config)
    (st : SyncState) (r : BufferRow) (resp : HttpResp)
    (hmem : r ∈ get_pending_records st.sqlite)
    (hnodup : ((get_pending_records st.sqlite).map (fun q => q.id)).Nodup)
    (hrc : cfg.maxRetryAttempts ≤ rcGet st.retryCount r.id) :
    (r.id ∉ (sync_via_mysql cfg st).2.2 ∧
     1 ≤ (sync_via_mysql cfg st).1.failed ∧
     r ∈ (sync_via_mysql cfg st).2.1.sqlite.buffer ∧
     rcGet (sync_via_mysql cfg st).2.1.retryCount r.id =
       rcGet st.retryCount r.id) ∧
    r.id ∈ (sync_via_http st resp).2.2 := by
  constructor
  · unfold sync_via_mysql
    rcases sync_via_mysql_loop_skips_maxed cfg
      (get_pending_records st.sqlite)
      { synced := 0, failed := 0, attempted := [], mysql := st.mysql,
        sqlite := st.sqlite, rc := st.retryCount } r hmem hnodup hrc with
      ⟨h1, h2, h3, h4⟩
    refine ⟨?_, h3, ?_, h2⟩
    · intro hin
      have := h1.mp hin
      simp at this
    · exact h4 (List.mem_of_mem_filter hmem)
  · unfold sync_via_http
    have hne : (get_pending_records st.sqlite).isEmpty = false := by
      cases hp : get_pending_records st.sqlite with
      | nil =>
        rw [hp] at hmem
        simp at hmem
      | cons a t => rfl
    cases resp with
    | ok ack =>
      simp only [hne, Bool.false_eq_true, if_false]
      exact List.mem_map_of_mem (fun q => q.id) hmem
    | rejected =>
      simp only [hne, Bool.false_eq_true, if_false]
      exact List.mem_map_of_mem (fun q => q.id) hmem
    | httpError =>
      simp only [hne, Bool.false_eq_true, if_false]
      exact List.mem_map_of_mem (fun q => q.id) hmem
    | netError =>
      simp only [hne, Bool.false_eq_true, if_false]
      exact List.mem_map_of_mem (fun q => q.id) hmem

/-- Witness for the amended C5 at the concrete maxed-out state. -/
theorem c5_maxed_record_skipped_by_mysql_pass_witness :
    ((1 : Nat) ∉ (sync_via_mysql cfgW5 stW5).2.2 ∧
     1 ≤ (sync_via_mysql cfgW5 stW5).1.failed ∧
     rowW5 ∈ (sync_via_mysql cfgW5 stW5).2.1.sqlite.buffer ∧
     rcGet (sync_via_mysql cfgW5 stW5).2.1.retryCount rowW5.id =
       rcGet stW5.retryCount rowW5.id) ∧
    rowW5.id ∈ (sync_via_http stW5 (.ok [])).2.2 := by
  have h := c5_maxed_record_skipped_by_mysql_pass cfgW5 stW5 rowW5 (.ok [])
    (by decide) (by decide) (by decide)
  exact h

/-- Accounting invariant of the `_sync_via_mysql` loop: every processed
record is counted exactly once, as synced or as failed, and both counts
only grow. -/
theorem sync_via_mysql_loop_counts (cfg : Config)
    (records : List BufferRow) :
    ∀ acc : MysqlLoop,
      (sync_via_mysql_loop cfg records acc).synced +
          (sync_via_mysql_loop cfg records acc).failed =
        acc.synced + acc.failed + records.length ∧
      acc.synced ≤ (sync_via_mysql_loop cfg records acc).synced ∧
      acc.failed ≤ (sync_via_mysql_loop cfg records acc).failed := by
  induction records with
  | nil =>
    intro acc
    unfold sync_via_mysql_loop
    simp
  | cons q rest ih =>
    intro acc
    unfold sync_via_mysql_loop
    by_cases hskip : cfg.maxRetryAttempts ≤ rcGet acc.rc q.id
    · rw [if_pos hskip]
      rcases ih { acc with failed := acc.failed + 1 } with ⟨h1, h2, h3⟩
      simp only [] at h1 h2 h3
      simp only [List.length_cons]
      refine ⟨?_, ?_, ?_⟩ <;> omega
    · rw [if_neg hskip]
      by_cases hok : (sync_record_mysql acc.mysql q).1 = true
      · rw [if_pos hok]
        rcases ih
          { acc with
            synced := acc.synced + 1
            attempted := acc.attempted ++ [q.id]
            mysql := (sync_record_mysql acc.mysql q).2
            sqlite := mark_synced acc.sqlite q.id
            rc := rcPop acc.rc q.id } with ⟨h1, h2, h3⟩
        simp only [] at h1 h2 h3
        simp only [List.length_cons]
        refine ⟨?_, ?_, ?_⟩ <;> omega
      · rw [if_neg hok]
        rcases ih
          { acc with
            failed := acc.failed + 1
            attempted := acc.attempted ++ [q.id]
            mysql := (sync_record_mysql acc.mysql q).2
            rc := rcSet acc.rc q.id (rcGet acc.rc q.id + 1) } with
          ⟨h1, h2, h3⟩
        simp only [] at h1 h2 h3
        simp only [List.length_cons]
        refine ⟨?_, ?_, ?_⟩ <;> omega

/-- Setup for the C10 counterexample: one pending record, MySQL down,
remote API configured. -/
def cfgW10 : Config :=
  { minWorkIntervalMinutes := 30, maxRetryAttempts := 3,
    stabilitySeconds := 3, cooldownSeconds := 60, apiConfigured := true }

def rowW10 : BufferRow :=
  { id := 1, worker_id := 7, attendance_date := 5, time_in := some 28800,
    time_out := none, status := "present", hours_worked := 0,
    sync_status := .pending, created_at := 1 }

def stW10 : SyncState :=
  { mysql := { connected := false, healthy := false,
               reconnectable := false, table := [], nextId := 1 }
    sqlite := { buffer := [rowW10], nextId := 2 }
    retryCount := [] }

/-- C10 counterexample: when the HTTP response acknowledges the same
pending buffer id twice ([1, 1], every listed id IS a submitted pending
id), `_sync_via_http` counts `synced = 2` and returns `failed = -1`,
a negative count — so the counts are not all non-negative under the
claim's assumption alone. -/
theorem c10_counts_counterexample :
    (∀ i ∈ [1, 1],
      i ∈ (get_pending_records stW10.sqlite).map (fun r => r.id)) ∧
    (sync_all cfgW10 stW10 (.ok [1, 1])).1.failed = -1 := by
  decide

/-- C10 (amended): when the acknowledged-id list of an HTTP success
response has no duplicates and only contains submitted pending ids,
every `sync_all` pass returns non-negative counts that sum to the
number of pending records at the start of the pass, and whenever either
transport path is actually taken the returned `pending` count is 0. -/
theorem c10_sync_all_counts (cfg : Config) (st : SyncState)
    (resp : HttpResp)
    (hack : ∀ ack, resp = HttpResp.ok ack → ack.Nodup ∧
      ∀ i ∈ ack, i ∈ (get_pending_records st.sqlite).map (fun r => r.id)) :
    (0 ≤ (sync_all cfg st resp).1.synced ∧
     0 ≤ (sync_all cfg st resp).1.failed ∧
     0 ≤ (sync_all cfg st resp).1.pending) ∧
    (sync_all cfg st resp).1.synced + (sync_all cfg st resp).1.failed +
        (sync_all cfg st resp).1.pending =
      (get_pending_records st.sqlite).length ∧
    ((sync_all cfg st resp).2.2.2 ≠ SyncPath.noPath →
      (sync_all cfg st resp).1.pending = 0) := by
  have hmysql : ∀ st' : SyncState,
      (0 ≤ (sync_via_mysql cfg st').1.synced ∧
       0 ≤ (sync_via_mysql cfg st').1.failed ∧
       0 ≤ (sync_via_mysql cfg st').1.pending) ∧
      (sync_via_mysql cfg st').1.synced + (sync_via_mysql cfg st').1.failed +
          (sync_via_mysql cfg st').1.pending =
        (get_pending_records st'.sqlite).length ∧
      (sync_via_mysql cfg st').1.pending = 0 := by
    intro st'
    rcases sync_via_mysql_loop_counts cfg (get_pending_records st'.sqlite)
      { synced := 0, failed := 0, attempted := [], mysql := st'.mysql,
        sqlite := st'.sqlite, rc := st'.retryCount } with ⟨h1, h2, h3⟩
    have h1' : (sync_via_mysql_loop cfg (get_pending_records st'.sqlite)
          { synced := 0, failed := 0, attempted := [], mysql := st'.mysql,
            sqlite := st'.sqlite, rc := st'.retryCount }).synced +
        (sync_via_mysql_loop cfg (get_pending_records st'.sqlite)
          { synced := 0, failed := 0, attempted := [], mysql := st'.mysql,
            sqlite := st'.sqlite, rc := st'.retryCount }).failed =
        0 + 0 + ((get_pending_records st'.sqlite).length : Int) := h1
    have h2' : (0 : Int) ≤ (sync_via_mysql_loop cfg
        (get_pending_records st'.sqlite)
        { synced := 0, failed := 0, attempted := [], mysql := st'.mysql,
          sqlite := st'.sqlite, rc := st'.retryCount }).synced := h2
    have h3' : (0 : Int) ≤ (sync_via_mysql_loop cfg
        (get_pending_records st'.sqlite)
        { synced := 0, failed := 0, attempted := [], mysql := st'.mysql,
          sqlite := st'.sqlite, rc := st'.retryCount }).failed := h3
    refine ⟨⟨h2', h3', ?_⟩, ?_, ?_⟩
    · show (0 : Int) ≤ ((get_pending_records st'.sqlite).length : Int) -
        (sync_via_mysql_loop cfg (get_pending_records st'.sqlite)
          { synced := 0, failed := 0, attempted := [], mysql := st'.mysql,
            sqlite := st'.sqlite, rc := st'.retryCount }).synced -
        (sync_via_mysql_loop cfg (get_pending_records st'.sqlite)
          { synced := 0, failed := 0, attempted := [], mysql := st'.mysql,
            sqlite := st'.sqlite, rc := st'.retryCount }).failed
      omega
    · show (sync_via_mysql_loop cfg (get_pending_records st'.sqlite)
          { synced := 0, failed := 0, attempted := [], mysql := st'.mysql,
            sqlite := st'.sqlite, rc := st'.retryCount }).synced +
        (sync_via_mysql_loop cfg (get_pending_records st'.sqlite)
          { synced := 0, failed := 0, attempted := [], mysql := st'.mysql,
            sqlite := st'.sqlite, rc := st'.retryCount }).failed +
        (((get_pending_records st'.sqlite).length : Int) -
          (sync_via_mysql_loop cfg (get_pending_records st'.sqlite)
            { synced := 0, failed := 0, attempted := [], mysql := st'.mysql,
              sqlite := st'.sqlite, rc := st'.retryCount }).synced -
          (sync_via_mysql_loop cfg (get_pending_records st'.sqlite)
            { synced := 0, failed := 0, attempted := [], mysql := st'.mysql,
              sqlite := st'.sqlite, rc := st'.retryCount }).failed) =
        ((get_pending_records st'.sqlite).length : Int)
      omega
    · show ((get_pending_records st'.sqlite).length : Int) -
        (sync_via_mysql_loop cfg (get_pending_records st'.sqlite)
          { synced := 0, failed := 0, attempted := [], mysql := st'.mysql,
            sqlite := st'.sqlite, rc := st'.retryCount }).synced -
        (sync_via_mysql_loop cfg (get_pending_records st'.sqlite)
          { synced := 0, failed := 0, attempted := [], mysql := st'.mysql,
            sqlite := st'.sqlite, rc := st'.retryCount }).failed = 0
      omega
  have hhttp :
      (0 ≤ (sync_via_http st resp).1.synced ∧
       0 ≤ (sync_via_http st resp).1.failed ∧
       0 ≤ (sync_via_http st resp).1.pending) ∧
      (sync_via_http st resp).1.synced + (sync_via_http st resp).1.failed +
          (sync_via_http st resp).1.pending =
        (get_pending_records st.sqlite).length ∧
      (sync_via_http st resp).1.pending = 0 := by
    unfold sync_via_http
    by_cases hemp : (get_pending_records st.sqlite).isEmpty = true
    · have hlen : (get_pending_records st.sqlite).length = 0 := by
        rw [List.isEmpty_iff] at hemp
        rw [hemp]
        rfl
      simp only [hemp, if_true]
      refine ⟨⟨le_refl _, le_refl _, le_refl _⟩, ?_, trivial⟩
      show (0 : Int) + 0 + 0 = ((get_pending_records st.sqlite).length : Int)
      rw [hlen]
      rfl
    · simp only [hemp, Bool.false_eq_true, if_false]
      cases resp with
      | ok ack =>
        rcases hack ack rfl with ⟨hnd, hsub⟩
        have hlen : ack.length ≤ (get_pending_records st.sqlite).length := by
          have e1 : ack.toFinset.card = ack.length :=
            List.toFinset_card_of_nodup hnd
          have e2 : ack.toFinset ⊆
              ((get_pending_records st.sqlite).map
                (fun r => r.id)).toFinset := by
            intro x hx
            rw [List.mem_toFinset] at hx ⊢
            exact hsub x hx
          have e3 := Finset.card_le_card e2
          have e4 : ((get_pending_records st.sqlite).map
              (fun r => r.id)).toFinset.card ≤
              ((get_pending_records st.sqlite).map (fun r => r.id)).length :=
            List.toFinset_card_le _
          rw [List.length_map] at e4
          omega
        refine ⟨⟨?_, ?_, ?_⟩, ?_, ?_⟩
        · show (0 : Int) ≤ (ack.length : Int)
          omega
        · show (0 : Int) ≤ ((get_pending_records st.sqlite).length : Int) -
            (ack.length : Int)
          omega
        · show (0 : Int) ≤ ((get_pending_records st.sqlite).length : Int) -
            (ack.length : Int) -
            (((get_pending_records st.sqlite).length : Int) -
              (ack.length : Int))
          omega
        · show (ack.length : Int) +
            (((get_pending_records st.sqlite).length : Int) -
              (ack.length : Int)) +
            (((get_pending_records st.sqlite).length : Int) -
              (ack.length : Int) -
              (((get_pending_records st.sqlite).length : Int) -
                (ack.length : Int))) =
            ((get_pending_records st.sqlite).length : Int)
          omega
        · show ((get_pending_records st.sqlite).length : Int) -
            (ack.length : Int) -
            (((get_pending_records st.sqlite).length : Int) -
              (ack.length : Int)) = 0
          omega
      | rejected =>
        refine ⟨⟨le_refl _, ?_, ?_⟩, ?_, ?_⟩
        · show (0 : Int) ≤ ((get_pending_records st.sqlite).length : Int)
          omega
        · show (0 : Int) ≤ ((get_pending_records st.sqlite).length : Int) -
            0 - ((get_pending_records st.sqlite).length : Int)
          omega
        · show (0 : Int) + ((get_pending_records st.sqlite).length : Int) +
            (((get_pending_records st.sqlite).length : Int) - 0 -
              ((get_pending_records st.sqlite).length : Int)) =
            ((get_pending_records st.sqlite).length : Int)
          omega
        · show ((get_pending_records st.sqlite).length : Int) - 0 -
            ((get_pending_records st.sqlite).length : Int) = 0
          omega
      | httpError =>
        refine ⟨⟨le_refl _, ?_, ?_⟩, ?_, ?_⟩
        · show (0 : Int) ≤ ((get_pending_records st.sqlite).length : Int)
          omega
        · show (0 : Int) ≤ ((get_pending_records st.sqlite).length : Int) -
            0 - ((get_pending_records st.sqlite).length : Int)
          omega
        · show (0 : Int) + ((get_pending_records st.sqlite).length : Int) +
            (((get_pending_records st.sqlite).length : Int) - 0 -
              ((get_pending_records st.sqlite).length : Int)) =
            ((get_pending_records st.sqlite).length : Int)
          omega
        · show ((get_pending_records st.sqlite).length : Int) - 0 -
            ((get_pending_records st.sqlite).length : Int) = 0
          omega
      | netError =>
        refine ⟨⟨le_refl _, ?_, ?_⟩, ?_, ?_⟩
        · show (0 : Int) ≤ ((get_pending_records st.sqlite).length : Int)
          omega
        · show (0 : Int) ≤ ((get_pending_records st.sqlite).length : Int) -
            0 - ((get_pending_records st.sqlite).length : Int)
          omega
        · show (0 : Int) + ((get_pending_records st.sqlite).length : Int) +
            (((get_pending_records st.sqlite).length : Int) - 0 -
              ((get_pending_records st.sqlite).length : Int)) =
            ((get_pending_records st.sqlite).length : Int)
          omega
        · show ((get_pending_records st.sqlite).length : Int) - 0 -
            ((get_pending_records st.sqlite).length : Int) = 0
          omega
  unfold sync_all
  by_cases hc : st.mysql.connected = true
  · simp only [hc, if_true]
    rcases hmysql st with ⟨ha, hb, hp⟩
    exact ⟨ha, hb, fun _ => hp⟩
  · simp only [eq_false_of_ne_true hc, Bool.false_eq_true, if_false]
    by_cases hr : st.mysql.reconnectable = true
    · simp only [hr, if_true]
      rcases hmysql (reconnectedState st) with ⟨ha, hb, hp⟩
      exact ⟨ha, hb, fun _ => hp⟩
    · simp only [eq_false_of_ne_true hr, Bool.false_eq_true, if_false]
      by_cases hapi : cfg.apiConfigured = true
      · simp only [hapi, if_true]
        rcases hhttp with ⟨ha, hb, hp⟩
        exact ⟨ha, hb, fun _ => hp⟩
      · simp only [eq_false_of_ne_true hapi, Bool.false_eq_true, if_false]
        refine ⟨⟨le_refl _, le_refl _, Int.natCast_nonneg _⟩, ?_, ?_⟩
        · show (0 : Int) + 0 +
            ((get_pending_records st.sqlite).length : Int) =
            ((get_pending_records st.sqlite).length : Int)
          omega
        · intro hpath
          exact absurd rfl hpath

/-- Witness for the amended C10 at a concrete state: one pending
record, HTTP transport, server acknowledges exactly id 1. -/
theorem c10_sync_all_counts_witness :
    (0 ≤ (sync_all cfgW10 stW10 (.ok [1])).1.synced ∧
     0 ≤ (sync_all cfgW10 stW10 (.ok [1])).1.failed ∧
     0 ≤ (sync_all cfgW10 stW10 (.ok [1])).1.pending) ∧
    (sync_all cfgW10 stW10 (.ok [1])).1.synced +
        (sync_all cfgW10 stW10 (.ok [1])).1.failed +
        (sync_all cfgW10 stW10 (.ok [1])).1.pending =
      (get_pending_records stW10.sqlite).length ∧
    ((sync_all cfgW10 stW10 (.ok [1])).2.2.2 ≠ SyncPath.noPath →
      (sync_all cfgW10 stW10 (.ok [1])).1.pending = 0) :=
  c10_sync_all_counts cfgW10 stW10 (.ok [1]) (fun ack hack => by
    injection hack with h
    subst h
    exact ⟨by decide, by decide⟩)

/-- An observation of a worker under an active cooldown leaves the gate
state unchanged and forwards nothing. -/
theorem observe_gate_cooldown (cfg : Config) (g : GateState) (w : Nat)
    (t e : ℚ) (hl : g.cooldowns.lookup w = some e) (hlt : t < e) :
    observe_gate cfg g (some w) t = (g, none) := by
  unfold observe_gate
  simp [hl, hlt]

/-- Whenever the gate emits a trigger on an observation of worker `w`,
the resulting state records `attendance_triggered_for = w`. -/
theorem observe_gate_trigger_sets (cfg : Config) (g : GateState)
    (w : Nat) (t : ℚ) (w' : Nat)
    (h : (observe_gate cfg g (some w) t).2 = some w') :
    (observe_gate cfg g (some w) t).1.triggeredFor = some w := by
  unfold observe_gate at h ⊢
  cases hlook : g.cooldowns.lookup w with
  | some e =>
    by_cases hlt : t < e
    · simp [hlook, hlt] at h
    · by_cases hst : (g.tracker.update w t).isStable cfg = true
      · by_cases htf : g.triggeredFor = some w
        · simp [hlook, hlt, hst, htf] at h
        · simp [hlook, hlt, hst, htf]
      · simp [hlook, hlt, hst] at h
  | none =>
    by_cases hst : (g.tracker.update w t).isStable cfg = true
    · by_cases htf : g.triggeredFor = some w
      · simp [hlook, hst, htf] at h
      · simp [hlook, hst, htf]
    · simp [hlook, hst] at h

/-- Once the gate has recorded a trigger for worker `w`, a further
uninterrupted stream of observations of `w` emits nothing and keeps the
record. -/
theorem run_gate_no_retrigger (cfg : Config) (w : Nat) :
    ∀ (ts : List ℚ) (g : GateState), g.triggeredFor = some w →
      (run_gate cfg g (ts.map (fun t => ((some w : Option Nat), t)))).2 =
        [] := by
  intro ts
  induction ts with
  | nil =>
    intro g hg
    rfl
  | cons t ts ih =>
    intro g hg
    have hstep : (observe_gate cfg g (some w) t).2 = none ∧
        (observe_gate cfg g (some w) t).1.triggeredFor = some w := by
      unfold observe_gate
      cases hlook : g.cooldowns.lookup w with
      | some e =>
        by_cases hlt : t < e
        · simp [hlook, hlt, hg]
        · by_cases hst : (g.tracker.update w t).isStable cfg = true
          · simp [hlook, hlt, hst, hg]
          · simp [hlook, hlt, hst, hg]
      | none =>
        by_cases hst : (g.tracker.update w t).isStable cfg = true
        · simp [hlook, hst, hg]
        · simp [hlook, hst, hg]
    rw [List.map_cons]
    simp only [run_gate]
    rw [hstep.1]
    simp only [Option.toList_none, List.nil_append]
    exact ih _ hstep.2

/-- C7: the debounce gate (i) never emits two confirmed triggers for
the same worker within one continuous dwell — over any uninterrupted
sequence of observations of one worker, at most one trigger is
forwarded to the state machine — and (ii) never emits a trigger for a
worker whose cooldown has not yet expired: such an observation leaves
the gate unchanged. -/
theorem c7_debounce_gate (cfg : Config) :
    (∀ (g : GateState) (w : Nat) (ts : List ℚ),
      (run_gate cfg g
        (ts.map (fun t => ((some w : Option Nat), t)))).2.length ≤ 1) ∧
    (∀ (g : GateState) (w : Nat) (t e : ℚ),
      g.cooldowns.lookup w = some e → t < e →
      observe_gate cfg g (some w) t = (g, none)) := by
  constructor
  · intro g w ts
    induction ts generalizing g with
    | nil =>
      simp [run_gate]
    | cons t ts ih =>
      rw [List.map_cons]
      simp only [run_gate]
      cases htr : (observe_gate cfg g (some w) t).2 with
      | none =>
        simp only [Option.toList_none, List.nil_append]
        exact ih _
      | some w' =>
        have hset := observe_gate_trigger_sets cfg g w t w' htr
        have hrest := run_gate_no_retrigger cfg w ts _ hset
        rw [hrest]
        simp
  · intro g w t e hl hlt
    exact observe_gate_cooldown cfg g w t e hl hlt

/-- Concrete gate states for the C7 witness. -/
def gW7 : GateState :=
  { tracker := Tracker.reset, triggeredFor := none, cooldowns := [] }

def gW7cd : GateState :=
  { tracker := Tracker.reset, triggeredFor := none,
    cooldowns := [(7, 100)] }

/-- Witness for C7: three consecutive observations of worker 7 produce
at most one trigger, and an observation at time 50 under a cooldown
expiring at 100 is swallowed. -/
theorem c7_debounce_gate_witness :
    (run_gate defaultConfig gW7
      ([1, 2, 9].map (fun t => ((some 7 : Option Nat), t)))).2.length ≤ 1 ∧
    observe_gate defaultConfig gW7cd (some 7) 50 = (gW7cd, none) :=
  ⟨(c7_debounce_gate defaultConfig).1 gW7 7 [1, 2, 9],
   (c7_debounce_gate defaultConfig).2 gW7cd 7 50 100 rfl (by norm_num)⟩

end TrackSite
